import Mathlib

/-!
# SquirrelScheduler — shallow embedding and verification

This file embeds the core of the SquirrelScheduler repository in Lean 4:
the `SScheduler` engine (packages/core/src/scheduler.ts, the version with
the reentrancy guard, batched sync loop, due-task filter and retry policy)
and the SQLite Drizzle storage adapter
(packages/drizzle-adapter/src/lib/sqlite.ts), and proves or refutes the
frozen specification claims about them.

Modelling conventions:
* Timestamps are natural numbers (milliseconds since epoch). A JS value
  that is either a `Date` or a raw `number` timestamp is modelled by
  `TSTime`, which remembers which of the two it is, because JS truthiness
  distinguishes them (`new Date(0)` is truthy, the number `0` is falsy).
* JS values handed to `orThrow` are modelled by `JsVal`, with JS
  truthiness.
* `async`/`await` with a single injected storage adapter is modelled by
  explicit state passing: every adapter operation is a function
  `σ → Except String (α × σ)`.  Thrown errors are `Except.error`.
  The engine records a `CallTag` for every adapter call it issues, so
  claims about "storage access" are claims about this trace.
* `Date.now()` / `new Date()` during one `sync()` call are modelled by a
  single `now` parameter (the code fixes `toDate` once at entry; nothing
  in the verified claims depends on the clock advancing inside a call).
* The source's unbounded `while (true)` loop is modelled with explicit
  fuel; concrete scenarios are run with ample fuel, and per-iteration
  facts are stated about the iteration function itself.
-/

/-- JS truthiness-carrying model of a `number | Date` timestamp value. -/
inductive TSTime where
  | date (ms : Nat)
  | num (ms : Nat)
deriving DecidableEq, Repr

/-- Model of `task.scheduledAt instanceof Date ? task.scheduledAt.getTime() : task.scheduledAt`. -/
def TSTime.toMs : TSTime → Nat
  | .date ms => ms
  | .num ms => ms

/-- JS truthiness of a `number | Date` value: any `Date` object is truthy,
a number is truthy iff nonzero. -/
def TSTime.truthy : TSTime → Bool
  | .date _ => true
  | .num ms => ms != 0

/-- JS truthiness of an optional timestamp (`undefined`/`null` are falsy). -/
def optTimeTruthy : Option TSTime → Bool
  | none => false
  | some t => t.truthy

/-- Minimal model of a JS value, enough to express the truthiness test in
`orThrow` (`utils/general.ts`). `vobj` is an opaque object/array tag. -/
inductive JsVal where
  | undef
  | null
  | vbool (b : Bool)
  | vnum (n : Nat)
  | vstr (s : String)
  | vobj (tag : Nat)
deriving DecidableEq, Repr

/-- JS truthiness for `JsVal`. -/
def JsVal.truthy : JsVal → Bool
  | .undef => false
  | .null => false
  | .vbool b => b
  | .vnum n => n != 0
  | .vstr s => s != ""
  | .vobj _ => true

/-- The helper `orThrow` from `utils/general.ts`:
`if (!value || value === '') throw new Error(message); return value;`
(the `=== ''` test is subsumed by falsiness of the empty string). -/
def orThrow (value : JsVal) (message : String) : Except String JsVal :=
  if !value.truthy then .error message else .ok value

/-- Same check for a `number | Date | undefined | null` argument. -/
def orThrowTime (value : Option TSTime) (message : String) :
    Except String TSTime :=
  match value with
  | none => .error message
  | some t => if !t.truthy then .error message else .ok t

/-- Task status, `STask['status']` (packages/core/src/types.ts). -/
inductive TaskStatus where
  | pending
  | in_progress
  | completed
  | failed
deriving DecidableEq, Repr

/-- The task entity `STask` (packages/core/src/types.ts). Ids are modelled as naturals
(`crypto.randomUUID()` becomes a fresh counter value). `payload`/`url`
are opaque `JsVal`s; `metadata` an opaque optional string. -/
structure STask where
  id : Nat
  url : JsVal
  payload : JsVal
  scheduledAt : TSTime
  status : TaskStatus
  retryCount : Nat
  maxRetries : Nat
  lastAttemptAt : Option TSTime
  nextAttemptAt : Option TSTime
  createdAt : Nat
  updatedAt : Nat
  metadata : Option String
  nextTaskId : Option Nat
deriving DecidableEq, Repr

/-- The attempt outcome `TaskAttemptResult` (packages/core/src/types.ts). -/
structure TaskAttemptResult where
  taskId : Nat
  attemptedAt : Nat
  statusCode : Nat
  response : Option String
  error : Option String
  duration : Nat
deriving DecidableEq, Repr

/-- Query parameters `ListTasksParams` (packages/core/src/types.ts). `from` is always a
(truthy) `Date` at the call sites, so it is a plain timestamp here. -/
structure ListTasksParams where
  from_ : Nat
  to_ : Option Nat
  status : Option TaskStatus
  limit : Option Nat
  offset : Option Nat
deriving DecidableEq, Repr

/-- The partial-update record passed to `updateTask`; `none` is JS
`undefined` (field not supplied, hence not updated by the adapter). -/
structure TaskUpdate where
  payload : Option JsVal := none
  metadata : Option (Option String) := none
  status : Option TaskStatus := none
  retryCount : Option Nat := none
  lastAttemptAt : Option TSTime := none
  nextAttemptAt : Option TSTime := none
  maxRetries : Option Nat := none
  nextTaskId : Option Nat := none
  updatedAt : Option Nat := none
deriving DecidableEq, Repr

/-- Data passed to `createTasks` (`CreateTaskData` in scheduler.ts). -/
structure CreateTaskData where
  url : JsVal
  payload : JsVal
  scheduledAt : TSTime
  maxRetries : Nat
  nextTaskId : Option Nat
  metadata : Option String
deriving DecidableEq, Repr

/-- One storage-adapter invocation issued by the engine (trace entry). -/
inductive CallTag where
  | getLastSync
  | listTasks (params : ListTasksParams)
  | claimTasks (ids : List Nat)
  | setLastSync (timestamp totalTasks : Nat)
  | updateTask (id : Nat)
  | recordTaskAttempt (id : Nat)
  | createTasks (data : List CreateTaskData)
deriving DecidableEq, Repr

/-- The storage adapter contract `SDBAdapter` consumed by the engine,
over an abstract backend state `σ`.  Each operation either returns a
value and the new backend state, or throws. -/
structure SDBAdapter (σ : Type) where
  getLastSync : σ → Except String ((Nat × Nat) × σ)
  listTasks : ListTasksParams → σ → Except String (List STask × σ)
  claimTasks : List STask → σ → Except String (List STask × σ)
  setLastSync : Nat → Nat → σ → Except String (Unit × σ)
  updateTask : Nat → TaskUpdate → σ → Except String (Option STask × σ)
  recordTaskAttempt : Nat → TaskAttemptResult → σ → Except String (Unit × σ)
  createTasks : List CreateTaskData → σ → Except String (List STask × σ)

/-- Backoff strategy (`SchedulerConfig['backoffStrategy']`). -/
inductive BackoffStrategy where
  | exponential
  | linear
  | fixed
deriving DecidableEq, Repr

/-- The `SchedulerConfig` object as passed by the caller (all fields optional). -/
structure SchedulerConfigInput where
  concurrency : Option Nat := none
  backoffStrategy : Option BackoffStrategy := none
  baseRetryDelay : Option Nat := none
  maxRetryDelay : Option Nat := none
  httpTimeout : Option Nat := none
  batchSize : Option Nat := none
deriving DecidableEq, Repr

/-- The resolved configuration, `Required<SchedulerConfig>`. -/
structure SchedulerConfig where
  concurrency : Nat
  backoffStrategy : BackoffStrategy
  baseRetryDelay : Nat
  maxRetryDelay : Nat
  httpTimeout : Nat
  batchSize : Nat
deriving DecidableEq, Repr

/-- The `SScheduler` constructor's config resolution (`?? defaults`). -/
def mkConfig (c : SchedulerConfigInput) : SchedulerConfig where
  concurrency := c.concurrency.getD 3
  backoffStrategy := c.backoffStrategy.getD .exponential
  baseRetryDelay := c.baseRetryDelay.getD 1000
  maxRetryDelay := c.maxRetryDelay.getD (1000 * 60 * 60)
  httpTimeout := c.httpTimeout.getD 30000
  batchSize := c.batchSize.getD 100

namespace SScheduler

/-- The `delay` computed inside `SScheduler.calculateNextAttemptTime`. -/
def retryDelay (cfg : SchedulerConfig) (retryCount : Nat) : Nat :=
  match cfg.backoffStrategy with
  | .exponential => min (cfg.baseRetryDelay * 2 ^ (retryCount - 1)) cfg.maxRetryDelay
  | .linear => min (cfg.baseRetryDelay * retryCount) cfg.maxRetryDelay
  | .fixed => cfg.baseRetryDelay

/-- Model of `SScheduler.calculateNextAttemptTime`: `new Date(Date.now() + delay)`. -/
def calculateNextAttemptTime (cfg : SchedulerConfig) (retryCount : Nat)
    (now : Nat) : Nat :=
  now + retryDelay cfg retryCount

/-- Model of `SScheduler.filterDueTasks`.  Note the JS truthiness test
`if (task.nextAttemptAt)`: an absent value or the number `0` falls
through to the `scheduledAt` comparison. -/
def filterDueTasks (now : Nat) (tasks : List STask) : List STask :=
  tasks.filter fun task =>
    match task.nextAttemptAt with
    | some nextAttempt =>
        if nextAttempt.truthy then nextAttempt.toMs ≤ now
        else task.scheduledAt.toMs ≤ now
    | none => task.scheduledAt.toMs ≤ now

/-- The instance-local builder state of `SScheduler`: the accumulated
`workflow` array plus a counter standing in for `crypto.randomUUID()`.
The `isProcessing` flag is passed to `sync` separately. -/
structure BuilderState where
  workflow : List STask
  nextUuid : Nat
deriving DecidableEq, Repr

/-- Sets the last draft's `nextTaskId` (the chaining assignment in `add`). -/
def setLastNextTaskId : List STask → Nat → List STask
  | [], _ => []
  | [t], nid => [{ t with nextTaskId := some nid }]
  | t :: ts, nid => t :: setLastNextTaskId ts nid

/-- Model of `SScheduler.add` (the version at scheduler.ts:287-311): validates
`payload`, `url` and `scheduledAt` with `orThrow` (in that order),
builds a draft with `maxRetries := 3`, chains the previous draft's
`nextTaskId` to the new id, and pushes the draft.  `add` is fully
synchronous: its type mentions no adapter, so it can make no storage
call.  The returned state is the mutated builder (`return this`). -/
def add (st : BuilderState) (payload url : JsVal)
    (scheduledAt : Option TSTime) (now : Nat) : Except String BuilderState :=
  match orThrow payload "payload is required" with
  | .error e => .error e
  | .ok payload =>
  match orThrow url "url is required" with
  | .error e => .error e
  | .ok url =>
  match orThrowTime scheduledAt "scheduledAt is required" with
  | .error e => .error e
  | .ok scheduledAt =>
  let newTask : STask :=
    { id := st.nextUuid
      status := .pending
      retryCount := 0
      maxRetries := 3
      payload := payload
      url := url
      scheduledAt := scheduledAt
      createdAt := now
      updatedAt := now
      lastAttemptAt := none
      nextAttemptAt := none
      nextTaskId := none
      metadata := none }
  let chained :=
    if st.workflow.length > 0 then setLastNextTaskId st.workflow newTask.id
    else st.workflow
  .ok { workflow := chained ++ [newTask], nextUuid := st.nextUuid + 1 }

/-- The per-draft projection built inside `SScheduler.schedule`. -/
def toCreateData (task : STask) : CreateTaskData :=
  { url := task.url
    payload := task.payload
    scheduledAt := task.scheduledAt
    maxRetries := task.maxRetries
    nextTaskId := task.nextTaskId
    metadata := task.metadata }

/-- Output of an effectful engine operation: the value or thrown error,
the backend state afterwards, and the adapter calls issued. -/
structure EffOut (σ : Type) (α : Type) where
  result : Except String α
  db : σ
  trace : List CallTag
deriving Repr

/-- Model of `SScheduler.schedule`: empty workflow short-circuits to `[]` with no
storage call; otherwise one `createTasks` bulk call; on failure the error
is wrapped with a count-qualified message.  The method body contains no
assignment to `this.workflow`, so the builder state it leaves behind
(returned as the second component, standing for `this` after the call)
is the input state unchanged in every branch. -/
def schedule {σ : Type} (A : SDBAdapter σ) (st : BuilderState) (s : σ) :
    EffOut σ (List STask) × BuilderState :=
  if st.workflow.length = 0 then (⟨.ok [], s, []⟩, st)
  else
    let tasksToCreate := st.workflow.map toCreateData
    match A.createTasks tasksToCreate s with
    | .ok (created, s') => (⟨.ok created, s', [.createTasks tasksToCreate]⟩, st)
    | .error e =>
        (⟨.error ("Failed to schedule " ++ toString tasksToCreate.length
            ++ " tasks: " ++ e), s, [.createTasks tasksToCreate]⟩, st)

/-- Model of `Promise.all([op1 ..., op2 ...])`: both operations run (a rejection
of one does not cancel the other); the first rejection wins.  Effects are
applied in array order. -/
def promiseAll2 {σ α β : Type} (op1 : σ → Except String (α × σ))
    (op2 : σ → Except String (β × σ)) (s : σ) :
    Except String (α × β) × σ :=
  match op1 s with
  | .ok (a, s1) =>
      match op2 s1 with
      | .ok (b, s2) => (.ok (a, b), s2)
      | .error e => (.error e, s1)
  | .error e =>
      match op2 s with
      | .ok (_, s1) => (.error e, s1)
      | .error _ => (.error e, s)

/-- Model of `SScheduler.handleTaskSuccess`: mark completed and record the attempt
(via `Promise.all`). -/
def handleTaskSuccess {σ : Type} (A : SDBAdapter σ) (now : Nat)
    (task : STask) (result : TaskAttemptResult) (s : σ) : EffOut σ Unit :=
  let pr := promiseAll2
    (A.updateTask task.id
      { status := some .completed
        lastAttemptAt := some (.date now)
        updatedAt := some now })
    (A.recordTaskAttempt task.id result) s
  ⟨pr.1.map fun _ => (), pr.2, [.updateTask task.id, .recordTaskAttempt task.id]⟩

/-- Model of `SScheduler.handleTaskError`: bump `retryCount`, pick `failed` or
`pending`, set `nextAttemptAt` only when retrying (`undefined`, i.e.
`none`, otherwise — which `updateTask` then skips), and record the
attempt (via `Promise.all`). -/
def handleTaskError {σ : Type} (A : SDBAdapter σ) (cfg : SchedulerConfig)
    (now : Nat) (task : STask) (result : TaskAttemptResult) (s : σ) :
    EffOut σ Unit :=
  let newRetryCount := task.retryCount + 1
  let nextAttemptAt := calculateNextAttemptTime cfg newRetryCount now
  let status : TaskStatus :=
    if newRetryCount > task.maxRetries then .failed else .pending
  let pr := promiseAll2
    (A.updateTask task.id
      { status := some status
        retryCount := some newRetryCount
        lastAttemptAt := some (.date now)
        nextAttemptAt :=
          if status = .pending then some (.date nextAttemptAt) else none
        updatedAt := some now })
    (A.recordTaskAttempt task.id result) s
  ⟨pr.1.map fun _ => (), pr.2, [.updateTask task.id, .recordTaskAttempt task.id]⟩

/-- Model of `SScheduler.executeTask`.  The HTTP call is stubbed out in the source
(`response = { status: 200, ok: true, ... }`), so the success path always
runs `handleTaskSuccess`; a storage error thrown from it is caught, fed
to `handleTaskError` with a 500 result, and then re-thrown (or the error
thrown by `handleTaskError` itself propagates). -/
def executeTask {σ : Type} (A : SDBAdapter σ) (cfg : SchedulerConfig)
    (now : Nat) (task : STask) (s : σ) : EffOut σ Unit :=
  let okResult : TaskAttemptResult :=
    { taskId := task.id
      attemptedAt := now
      statusCode := 200
      duration := 0
      response := some "success"
      error := none }
  let hs := handleTaskSuccess A now task okResult s
  match hs.result with
  | .ok _ => ⟨.ok (), hs.db, hs.trace⟩
  | .error e =>
      let errResult : TaskAttemptResult :=
        { taskId := task.id
          attemptedAt := now
          statusCode := 500
          duration := 0
          response := none
          error := some e }
      let he := handleTaskError A cfg now task errResult hs.db
      match he.result with
      | .ok _ => ⟨.error e, he.db, hs.trace ++ he.trace⟩
      | .error e2 => ⟨.error e2, he.db, hs.trace ++ he.trace⟩

/-- Output of `executeTasksBatch`: the `successful`/`failed` counters,
the backend state, and the adapter calls issued. -/
structure BatchOut (σ : Type) where
  succ : Nat
  fail : Nat
  db : σ
  trace : List CallTag
deriving Repr

/-- Model of `SScheduler.executeTasksBatch`: strictly sequential; every per-task
error is caught and counted, never propagated. -/
def executeTasksBatch {σ : Type} (A : SDBAdapter σ) (cfg : SchedulerConfig)
    (now : Nat) : List STask → σ → BatchOut σ
  | [], s => ⟨0, 0, s, []⟩
  | task :: rest, s =>
    let e := executeTask A cfg now task s
    let r := executeTasksBatch A cfg now rest e.db
    match e.result with
    | .ok _ => ⟨r.succ + 1, r.fail, r.db, e.trace ++ r.trace⟩
    | .error _ => ⟨r.succ, r.fail + 1, r.db, e.trace ++ r.trace⟩

/-- Outcome of one round of the `while (true)` loop body in `sync`. -/
inductive IterStep where
  | stop
  | continu (processed failedAcc : Nat)
deriving DecidableEq, Repr

/-- Output of one loop iteration: the control-flow outcome (or the thrown
storage error), the backend state, the adapter calls issued, and the
`(successful, failed)` counters of the batch if one was executed. -/
structure IterOut (σ : Type) where
  step : Except String IterStep
  db : σ
  trace : List CallTag
  batches : List (Nat × Nat)
deriving Repr

/-- One iteration of the `sync` loop body (scheduler.ts:354-378):
list a batch of pending tasks in the window, stop if none; filter due,
stop if none; claim; execute the claimed batch sequentially; update the
accumulated counters and persist the checkpoint.  Note there is no check
on `claimedTasks.length`: a zero-claim batch still writes a checkpoint
and continues the loop. -/
def syncIter {σ : Type} (A : SDBAdapter σ) (cfg : SchedulerConfig)
    (fromDate toDate now processed failedAcc : Nat) (s : σ) : IterOut σ :=
  let params : ListTasksParams :=
    { from_ := fromDate
      to_ := some toDate
      status := some .pending
      limit := some cfg.batchSize
      offset := none }
  match A.listTasks params s with
  | .error e => ⟨.error e, s, [.listTasks params], []⟩
  | .ok (pendingTasks, s1) =>
    if pendingTasks.isEmpty then ⟨.ok .stop, s1, [.listTasks params], []⟩
    else
      let dueTasks := filterDueTasks now pendingTasks
      if dueTasks.isEmpty then ⟨.ok .stop, s1, [.listTasks params], []⟩
      else
        match A.claimTasks dueTasks s1 with
        | .error e =>
            ⟨.error e, s1,
             [.listTasks params, .claimTasks (dueTasks.map (·.id))], []⟩
        | .ok (claimedTasks, s2) =>
          let B := executeTasksBatch A cfg now claimedTasks s2
          let processed' := processed + B.succ
          let failed' := failedAcc + B.fail
          match A.setLastSync toDate processed' B.db with
          | .error e =>
              ⟨.error e, B.db,
               [.listTasks params, .claimTasks (dueTasks.map (·.id))] ++ B.trace
                 ++ [.setLastSync toDate processed'], [(B.succ, B.fail)]⟩
          | .ok (_, s4) =>
              ⟨.ok (.continu processed' failed'), s4,
               [.listTasks params, .claimTasks (dueTasks.map (·.id))] ++ B.trace
                 ++ [.setLastSync toDate processed'], [(B.succ, B.fail)]⟩

/-- Cumulative output of the `while (true)` loop. -/
structure LoopOut (σ : Type) where
  result : Except String Unit
  db : σ
  trace : List CallTag
  batches : List (Nat × Nat)
deriving Repr

/-- The `while (true)` loop of `sync`, with explicit fuel (the source
loop is unbounded; all concrete scenarios below are run with ample
fuel, and fuel exhaustion simply stops the loop). -/
def syncLoop {σ : Type} (A : SDBAdapter σ) (cfg : SchedulerConfig)
    (fromDate toDate now : Nat) :
    Nat → Nat → Nat → σ → LoopOut σ
  | 0, _, _, s => ⟨.ok (), s, [], []⟩
  | fuel + 1, processed, failedAcc, s =>
    let it := syncIter A cfg fromDate toDate now processed failedAcc s
    match it.step with
    | .error e => ⟨.error e, it.db, it.trace, it.batches⟩
    | .ok .stop => ⟨.ok (), it.db, it.trace, it.batches⟩
    | .ok (.continu p' f') =>
        let rest := syncLoop A cfg fromDate toDate now fuel p' f' it.db
        ⟨rest.result, rest.db, it.trace ++ rest.trace, it.batches ++ rest.batches⟩

/-- Output of one `sync()` call.  `result` is the resolved value of the
returned promise: the source's `sync` is `Promise<void>`, so a normal
return resolves to `undefined`, modelled as `.ok none`; `some` would be
an actual task list (never produced by this code). -/
structure SyncOut (σ : Type) where
  result : Except String (Option (List STask))
  db : σ
  isProcessingAfter : Bool
  trace : List CallTag
  batches : List (Nat × Nat)
deriving Repr

/-- Model of `SScheduler.sync` (scheduler.ts:338-386).  If `isProcessing` is
already set the call returns immediately (`return;`) touching neither
flag nor storage.  Otherwise the flag is set, `getLastSync` fixes the
window `[timestamp, now)`, the batch loop runs, and the `finally`
block clears the flag on every exit path — including a thrown storage
error, which is re-thrown after logging. -/
def sync {σ : Type} (A : SDBAdapter σ) (cfg : SchedulerConfig)
    (now fuel : Nat) (s : σ) (isProcessing : Bool) : SyncOut σ :=
  if isProcessing then ⟨.ok none, s, isProcessing, [], []⟩
  else
    match A.getLastSync s with
    | .error e => ⟨.error e, s, false, [.getLastSync], []⟩
    | .ok ((timestamp, _totalTasks), s1) =>
      let fromDate := timestamp
      let toDate := now
      let L := syncLoop A cfg fromDate toDate now fuel 0 0 s1
      ⟨L.result.map fun _ => none, L.db, false, .getLastSync :: L.trace, L.batches⟩

end SScheduler

/-! ## The SQLite Drizzle adapter
(packages/drizzle-adapter/src/lib/sqlite.ts), as a pure model over an
explicit database state.  Row order models SQLite table order
(insertion order); `ORDER BY ... DESC` is a stable descending sort. -/

namespace SQLiteAdapter

/-- A row of `squirrel_sync_history`. -/
structure SyncRow where
  id : Nat
  timestamp : Nat
  totalTasks : Nat
deriving DecidableEq, Repr

/-- A row of `squirrel_task_result`. -/
structure AttemptRow where
  id : Nat
  taskId : Nat
  attemptedAt : Nat
  statusCode : Nat
  response : Option String
  error : Option String
  duration : Nat
deriving DecidableEq, Repr

/-- The SQLite database state: the three tables (in table order) plus a
counter standing in for `crypto.randomUUID()` / generated row ids. -/
structure DBState where
  tasks : List STask
  syncHistory : List SyncRow
  attempts : List AttemptRow
  nextRowId : Nat
deriving DecidableEq, Repr

/-- Stable insertion sort by a `Bool` "should come before" relation. -/
def sortBy {α : Type} (before : α → α → Bool) : List α → List α
  | [] => []
  | x :: xs => insertSorted before x (sortBy before xs)
where
  insertSorted (before : α → α → Bool) (x : α) : List α → List α
    | [] => [x]
    | y :: ys =>
        if before y x then y :: insertSorted before x ys
        else x :: y :: ys

/-- Model of `claimTasks`: `UPDATE ... SET status='in_progress' WHERE id IN ids AND
status='pending'`, then `SELECT ... WHERE id IN ids AND
status='in_progress'`.  The select therefore also returns input tasks
that were already `in_progress` before the call. -/
def claimTasks (tasks : List STask) (s : DBState) : List STask × DBState :=
  let ids := tasks.map (·.id)
  let updated := s.tasks.map fun t =>
    if ids.contains t.id && t.status == .pending then
      { t with status := .in_progress }
    else t
  let returned := updated.filter fun t =>
    ids.contains t.id && t.status == .in_progress
  (returned, { s with tasks := updated })

/-- Model of `listTasks`: filter by status / `scheduledAt >= from` /
`scheduledAt < to`, `ORDER BY scheduledAt DESC`, then `LIMIT`/`OFFSET`.
The `from`/`to` arguments are `Date`s at every call site, hence always
truthy, so both window conditions are applied whenever present. -/
def listTasks (p : ListTasksParams) (s : DBState) : List STask :=
  let conds := fun (t : STask) =>
    (match p.status with
     | some st => t.status == st
     | none => true) &&
    t.scheduledAt.toMs ≥ p.from_ &&
    (match p.to_ with
     | some toMs => t.scheduledAt.toMs < toMs
     | none => true)
  let sorted := sortBy (fun a b => a.scheduledAt.toMs > b.scheduledAt.toMs)
    (s.tasks.filter conds)
  let afterOffset := match p.offset with
    | some o => sorted.drop o
    | none => sorted
  match p.limit with
  | some l => afterOffset.take l
  | none => afterOffset

/-- Model of `getLastSync`: latest `squirrel_sync_history` row by timestamp, or
`{timestamp: 0, totalTasks: 0}` on an empty table. -/
def getLastSync (s : DBState) : Nat × Nat :=
  match sortBy (fun a b => a.timestamp > b.timestamp) s.syncHistory with
  | [] => (0, 0)
  | r :: _ => (r.timestamp, r.totalTasks)

/-- Model of `setLastSync`: inserts a fresh history row. -/
def setLastSync (timestamp totalTasks : Nat) (s : DBState) : DBState :=
  { s with
    syncHistory := s.syncHistory ++
      [{ id := s.nextRowId, timestamp := timestamp, totalTasks := totalTasks }]
    nextRowId := s.nextRowId + 1 }

/-- Model of `updateTask`: partial update; `updatedAt` is always bumped, every
other column is written only when the corresponding field of the update
object is not `undefined`.  Returns the updated row (if any). -/
def updateTask (taskId : Nat) (u : TaskUpdate) (now : Nat) (s : DBState) :
    Option STask × DBState :=
  let apply := fun (t : STask) =>
    if t.id == taskId then
      { t with
        updatedAt := now
        payload := u.payload.getD t.payload
        metadata := match u.metadata with
          | some m => m
          | none => t.metadata
        status := u.status.getD t.status
        retryCount := u.retryCount.getD t.retryCount
        lastAttemptAt := match u.lastAttemptAt with
          | some v => some v
          | none => t.lastAttemptAt
        nextAttemptAt := match u.nextAttemptAt with
          | some v => some v
          | none => t.nextAttemptAt
        maxRetries := u.maxRetries.getD t.maxRetries
        nextTaskId := match u.nextTaskId with
          | some v => some v
          | none => t.nextTaskId }
    else t
  let updated := s.tasks.map apply
  ((updated.filter (·.id == taskId)).head?, { s with tasks := updated })

/-- Model of `recordTaskAttempt`: appends a `squirrel_task_result` row;
`attemptedAt` is `new Date()` at insert time, and empty-string
`response`/`error` collapse to `NULL` (`result.response || null`). -/
def recordTaskAttempt (taskId : Nat) (r : TaskAttemptResult) (now : Nat)
    (s : DBState) : DBState :=
  let orNull := fun (v : Option String) =>
    match v with
    | some str => if str == "" then none else some str
    | none => none
  { s with
    attempts := s.attempts ++
      [{ id := s.nextRowId
         taskId := taskId
         attemptedAt := now
         statusCode := r.statusCode
         response := orNull r.response
         error := orNull r.error
         duration := r.duration }]
    nextRowId := s.nextRowId + 1 }

/-- Model of `createTasks`: bulk insert with backend-assigned id, `status :=
pending`, `retryCount := 0` and bookkeeping timestamps; returns the
inserted rows. -/
def createTasks (data : List CreateTaskData) (now : Nat) (s : DBState) :
    List STask × DBState :=
  let rows := (List.range data.length).zip data |>.map fun (i, d) =>
    { id := s.nextRowId + i
      url := d.url
      payload := d.payload
      scheduledAt := d.scheduledAt
      status := .pending
      retryCount := 0
      maxRetries := d.maxRetries
      lastAttemptAt := none
      nextAttemptAt := none
      createdAt := now
      updatedAt := now
      metadata := d.metadata
      nextTaskId := d.nextTaskId : STask }
  (rows, { s with tasks := s.tasks ++ rows, nextRowId := s.nextRowId + data.length })

end SQLiteAdapter

/-- The SQLite Drizzle adapter packaged as an `SDBAdapter` over
`DBState`; the pure model never throws.  `now` stands for `new Date()`
inside the adapter. -/
def sqliteAdapter (now : Nat) : SDBAdapter SQLiteAdapter.DBState where
  getLastSync s := .ok (SQLiteAdapter.getLastSync s, s)
  listTasks p s := .ok (SQLiteAdapter.listTasks p s, s)
  claimTasks ts s := .ok (SQLiteAdapter.claimTasks ts s)
  setLastSync ts total s := .ok ((), SQLiteAdapter.setLastSync ts total s)
  updateTask id u s := .ok (SQLiteAdapter.updateTask id u now s)
  recordTaskAttempt id r s := .ok ((), SQLiteAdapter.recordTaskAttempt id r now s)
  createTasks d s := .ok (SQLiteAdapter.createTasks d now s)

/-! ## Spec-side definitions (for comparison with the source)

These two definitions follow the words of the specification, not the
source, and exist only to be compared against the source-derived
definitions above. -/

/-- Follows the spec's words (§4.3 Retry Policy):
`nextDelay(attemptNumber, strategy, baseDelay, maxDelay)`. -/
def nextDelaySpec (attemptNumber : Nat) (strategy : BackoffStrategy)
    (baseDelay maxDelay : Nat) : Nat :=
  match strategy with
  | .exponential => min (baseDelay * 2 ^ (attemptNumber - 1)) maxDelay
  | .linear => min (baseDelay * attemptNumber) maxDelay
  | .fixed => baseDelay

/-- Follows the spec's words (§4.4 Due-Task Selector): due iff
`nextAttemptAt` is set and `nextAttemptAt <= now`, or `nextAttemptAt` is
absent and `scheduledAt <= now`. -/
def dueSelectorSpec (now : Nat) (t : STask) : Bool :=
  match t.nextAttemptAt with
  | some x => x.toMs ≤ now
  | none => t.scheduledAt.toMs ≤ now

/-! ## Trace bookkeeping helpers -/

/-- The `(timestamp, totalTasks)` arguments of the `setLastSync` calls in
a trace, in order. -/
def setLastSyncCalls (tr : List CallTag) : List (Nat × Nat) :=
  tr.filterMap fun tag =>
    match tag with
    | .setLastSync ts n => some (ts, n)
    | _ => none

/-- Number of `listTasks` calls in a trace. -/
def listTasksCount (tr : List CallTag) : Nat :=
  (tr.filter fun tag =>
    match tag with
    | .listTasks _ => true
    | _ => false).length

/-- Computes `runningTotals p [a, b, c] = [p+a, p+a+b, p+a+b+c]`. -/
def runningTotals (p : Nat) : List Nat → List Nat
  | [] => []
  | a :: rest => (p + a) :: runningTotals (p + a) rest

/-! ## Concrete fixtures -/

/-- A fresh pending task with the given id and `scheduledAt`. -/
def mkPendingTask (i sched : Nat) : STask :=
  { id := i, url := .vstr "u", payload := .vobj 0, scheduledAt := .num sched,
    status := .pending, retryCount := 0, maxRetries := 3,
    lastAttemptAt := none, nextAttemptAt := none, createdAt := 0,
    updatedAt := 0, metadata := none, nextTaskId := none }

/-- C3 scenario store: three pending tasks due before `now = 100`. -/
def dbThree : SQLiteAdapter.DBState :=
  { tasks := [mkPendingTask 1 10, mkPendingTask 2 20, mkPendingTask 3 30]
    syncHistory := []
    attempts := []
    nextRowId := 10 }

/-- The default configuration with `batchSize := 2` (C3 scenario). -/
def cfgBatch2 : SchedulerConfig := mkConfig { batchSize := some 2 }

/-- The all-defaults configuration. -/
def cfgDefault : SchedulerConfig := mkConfig {}

/-- The `listTasks` parameters `sync` issues with window `[0, 100)` and
batch size 2. -/
def paramsBatch2 : ListTasksParams :=
  { from_ := 0, to_ := some 100, status := some .pending, limit := some 2,
    offset := none }

/-- C1/C7 fixture: a task already claimed by a concurrent poller. -/
def preClaimedTask : STask :=
  { mkPendingTask 4 10 with status := .in_progress }

/-- C1 fixture: a still-pending companion task. -/
def stillPendingTask : STask := mkPendingTask 5 20

/-- C1 store: one pre-claimed and one pending task. -/
def dbPreClaimed : SQLiteAdapter.DBState :=
  { tasks := [preClaimedTask, stillPendingTask]
    syncHistory := []
    attempts := []
    nextRowId := 20 }

/-- C7 fixture: an in-flight task on its last permitted retry, carrying
the `nextAttemptAt` written after its first failure. -/
def lastRetryTask : STask :=
  { mkPendingTask 7 10 with
    status := .in_progress
    retryCount := 1
    maxRetries := 1
    nextAttemptAt := some (.date 77) }

/-- C7 store holding `lastRetryTask`. -/
def dbLastRetry : SQLiteAdapter.DBState :=
  { tasks := [lastRetryTask], syncHistory := [], attempts := [], nextRowId := 30 }

/-- C7: the failure outcome fed to `handleTaskError`. -/
def failedAttempt : TaskAttemptResult :=
  { taskId := 7, attemptedAt := 100, statusCode := 500, duration := 0,
    response := none, error := some "boom" }

/-- C6 fixture: `nextAttemptAt` is the numeric timestamp `0` (epoch,
which is *set* but falsy in JS) while `scheduledAt` is in the future. -/
def epochRetryTask : STask :=
  { mkPendingTask 6 200 with nextAttemptAt := some (.num 0) }

/-- C4 counterexample adapter: models a concurrent poller winning the
race for the entire due subset.  Backend state is a phase counter:
in phase 0 `listTasks` sees one due pending task; `claimTasks` returns
the empty set (the other poller claimed everything) and moves to phase
1, where `listTasks` sees nothing. -/
def contentionAdapter : SDBAdapter Nat where
  getLastSync s := .ok ((0, 0), s)
  listTasks _ s := .ok (if s = 0 then [mkPendingTask 9 10] else [], s)
  claimTasks := fun _ _ => .ok ([], 1)
  setLastSync _ _ s := .ok ((), s)
  updateTask _ _ s := .ok (none, s)
  recordTaskAttempt _ _ s := .ok ((), s)
  createTasks _ s := .ok ([], s)

/-- C5 counterexample adapter: two due pending tasks; the claim succeeds
on both, but every `updateTask` on task 2 throws, so of the two executed
tasks one succeeds and one fails. -/
def flakyAdapter : SDBAdapter Nat where
  getLastSync s := .ok ((0, 0), s)
  listTasks _ s := .ok (if s = 0 then [mkPendingTask 1 10, mkPendingTask 2 20] else [], s)
  claimTasks ts _ := .ok (ts, 1)
  setLastSync _ _ s := .ok ((), s)
  updateTask id _ s := if id = 2 then .error "disk full" else .ok (none, s)
  recordTaskAttempt _ _ s := .ok ((), s)
  createTasks _ s := .ok ([], s)

/-- C2 witness adapter: `getLastSync` always throws. -/
def failingAdapter : SDBAdapter Unit where
  getLastSync _ := .error "db down"
  listTasks _ s := .ok ([], s)
  claimTasks _ s := .ok ([], s)
  setLastSync _ _ s := .ok ((), s)
  updateTask _ _ s := .ok (none, s)
  recordTaskAttempt _ _ s := .ok ((), s)
  createTasks _ s := .ok ([], s)

/-- C10 witness adapter: `createTasks` echoes nothing and keeps state. -/
def acceptingAdapter : SDBAdapter Unit where
  getLastSync s := .ok ((0, 0), s)
  listTasks _ s := .ok ([], s)
  claimTasks _ s := .ok ([], s)
  setLastSync _ _ s := .ok ((), s)
  updateTask _ _ s := .ok (none, s)
  recordTaskAttempt _ _ s := .ok ((), s)
  createTasks _ s := .ok ([], s)

/-! ## Claim theorems -/

/-- C1: the claim states that `claimTasks` returns only the input tasks
it transitioned from `pending` to `in_progress`, silently excluding tasks
already `in_progress` before the call.  The code violates this: the
post-update `SELECT` matches every input id with status `in_progress`,
including tasks claimed earlier by a concurrent poller.  Here
`preClaimedTask` (id 4) is already `in_progress` before the call, yet it
is the first element of the returned set, alongside the genuinely
transitioned `stillPendingTask` (id 5).  This defeats the stated purpose
of the claim protocol (a task can be returned to two pollers and executed
twice), so it is recorded as a bug in the code, not a spec error. -/
theorem C1_claimTasks_returns_preclaimed :
    preClaimedTask.status = TaskStatus.in_progress ∧
    (SQLiteAdapter.claimTasks [preClaimedTask, stillPendingTask] dbPreClaimed).1
      = [preClaimedTask, { stillPendingTask with status := .in_progress }] := by
  exact ⟨rfl, rfl⟩

/-- C3 counterexample: `sync` is `Promise<void>` — on the very scenario
the claim describes (batchSize 2, three pending due tasks) it resolves to
`undefined` (modelled `.ok none`), not to the list of the three claimed
tasks, refuting "sync() returns the list of all tasks it claimed and
executed". -/
theorem C3_sync_result_is_void :
    (SScheduler.sync (sqliteAdapter 100) cfgBatch2 100 10 dbThree false).result
      = .ok none ∧
    (SScheduler.sync (sqliteAdapter 100) cfgBatch2 100 10 dbThree false).result
      ≠ .ok (some [{ mkPendingTask 2 20 with status := .in_progress },
                   { mkPendingTask 3 30 with status := .in_progress },
                   { mkPendingTask 1 10 with status := .in_progress }]) := by
  refine ⟨rfl, fun h => ?_⟩
  injection h with h2
  exact Option.noConfusion h2

/-- C3 amended: `sync()` returns no value (`undefined`); in the scenario
with `batchSize = 2` and three pending due tasks it claims and executes
all three tasks across two internal batches (ids 2 and 3 claimed in the
first batch — in table order, the order `claimTasks` returned them — and
id 1 in the second), `listTasks` is invoked exactly three times (two
invocations yielding tasks, a final empty one terminating the loop), and
all three tasks end `completed`. -/
theorem C3_amended_two_batches :
    (SScheduler.sync (sqliteAdapter 100) cfgBatch2 100 10 dbThree false).trace
      = [.getLastSync,
         .listTasks paramsBatch2, .claimTasks [3, 2],
         .updateTask 2, .recordTaskAttempt 2,
         .updateTask 3, .recordTaskAttempt 3,
         .setLastSync 100 2,
         .listTasks paramsBatch2, .claimTasks [1],
         .updateTask 1, .recordTaskAttempt 1,
         .setLastSync 100 3,
         .listTasks paramsBatch2] ∧
    listTasksCount (SScheduler.sync (sqliteAdapter 100) cfgBatch2 100 10 dbThree false).trace = 3 ∧
    (SScheduler.sync (sqliteAdapter 100) cfgBatch2 100 10 dbThree false).batches
      = [(2, 0), (1, 0)] ∧
    (SScheduler.sync (sqliteAdapter 100) cfgBatch2 100 10 dbThree false).result
      = .ok none ∧
    ((SScheduler.sync (sqliteAdapter 100) cfgBatch2 100 10 dbThree false).db.tasks.map
        fun t => (t.id, t.status))
      = [(1, .completed), (2, .completed), (3, .completed)] := by
  exact ⟨rfl, rfl, rfl, rfl, rfl⟩

/-- C6 counterexample: a task whose `nextAttemptAt` is the numeric
timestamp `0` (set, and `0 ≤ now`) with a future `scheduledAt`.  The
spec's selector (`dueSelectorSpec`) says it is due; the code's truthiness
test `if (task.nextAttemptAt)` treats the number `0` as absent, falls
back to `scheduledAt`, and does not select it. -/
theorem C6_epoch_zero_counterexample :
    epochRetryTask.nextAttemptAt = some (TSTime.num 0) ∧
    dueSelectorSpec 100 epochRetryTask = true ∧
    SScheduler.filterDueTasks 100 [epochRetryTask] = [] := by
  exact ⟨rfl, rfl, rfl⟩

/-- C7: the claim (and spec §4.2/§8) states that when the incremented
`retryCount` exceeds `maxRetries` the task's persisted `nextAttemptAt`
ends up absent.  The engine passes `nextAttemptAt: undefined` in that
case, and the adapter's `updateTask` skips `undefined` fields, so a
`nextAttemptAt` persisted by an earlier retry survives the transition to
`failed`.  Here task 7 (`retryCount = 1 = maxRetries`, `nextAttemptAt`
set to 77 by its first failure) fails again: it is stored as `failed`
with `retryCount = 2`, but its `nextAttemptAt` is still 77 — the code
contradicts the engine's own evident intent to clear it, so this is
recorded as a bug in the code. -/
theorem C7_stale_nextAttemptAt :
    (SScheduler.handleTaskError (sqliteAdapter 100) cfgDefault 100
        lastRetryTask failedAttempt dbLastRetry).result = .ok () ∧
    (SScheduler.handleTaskError (sqliteAdapter 100) cfgDefault 100
        lastRetryTask failedAttempt dbLastRetry).db.tasks
      = [{ lastRetryTask with
            status := .failed
            retryCount := 2
            lastAttemptAt := some (.date 100)
            updatedAt := 100 }] ∧
    ((SScheduler.handleTaskError (sqliteAdapter 100) cfgDefault 100
        lastRetryTask failedAttempt dbLastRetry).db.tasks.map
        fun t => t.nextAttemptAt)
      = [some (TSTime.date 77)] := by
  exact ⟨rfl, rfl, rfl⟩

/-- C4 counterexample: with a backend on which a concurrent poller wins
the whole due subset (`contentionAdapter`: `listTasks` yields one due
task, `claimTasks` returns zero tasks), the claim says the loop
terminates without writing a checkpoint or fetching another batch.  The
trace shows the opposite: after the zero-task claim the engine still
calls `setLastSync` and then `listTasks` a second time. -/
theorem C4_zero_claim_counterexample :
    (SScheduler.sync contentionAdapter cfgDefault 100 5 0 false).trace
      = [.getLastSync,
         .listTasks { from_ := 0, to_ := some 100, status := some .pending,
                      limit := some 100, offset := none },
         .claimTasks [9],
         .setLastSync 100 0,
         .listTasks { from_ := 0, to_ := some 100, status := some .pending,
                      limit := some 100, offset := none }] ∧
    (SScheduler.sync contentionAdapter cfgDefault 100 5 0 false).batches
      = [(0, 0)] := by
  exact ⟨rfl, rfl⟩

/-- C5 counterexample, refuting both halves of the claim.  (a) With
`flakyAdapter` a batch of two claimed tasks yields one success and one
failure (`updateTask` on task 2 throws), yet the persisted checkpoint
carries `totalTasks = 1` — the cumulative *successful-only* count — not
the claimed successful-plus-failed count 2.  (b) With
`contentionAdapter` a batch whose claim returns zero tasks still writes
a checkpoint, refuting "and only after such a batch". -/
theorem C5_checkpoint_counts_counterexample :
    setLastSyncCalls (SScheduler.sync flakyAdapter cfgDefault 100 5 0 false).trace
      = [(100, 1)] ∧
    (SScheduler.sync flakyAdapter cfgDefault 100 5 0 false).batches = [(1, 1)] ∧
    setLastSyncCalls (SScheduler.sync contentionAdapter cfgDefault 100 5 0 false).trace
      = [(100, 0)] ∧
    (SScheduler.sync contentionAdapter cfgDefault 100 5 0 false).batches
      = [(0, 0)] := by
  exact ⟨rfl, rfl, rfl, rfl⟩

/-- C2: the reentrancy guard and guaranteed flag release.  (a) A `sync`
entered while `isProcessing` is set returns immediately with no task
list, an untouched backend, and an empty call trace (no storage
access).  (b) A flag-setting invocation (entered with the flag clear)
has the flag clear again on exit, whatever the adapter did — the
`finally` semantics.  (c) A storage error thrown by `getLastSync`
propagates out of `sync` (after the flag is cleared, by (b)). -/
theorem C2_reentrancy_guard_and_flag {σ : Type} (A : SDBAdapter σ)
    (cfg : SchedulerConfig) (now fuel : Nat) (s : σ) :
    SScheduler.sync A cfg now fuel s true
      = ⟨.ok none, s, true, [], []⟩ ∧
    (SScheduler.sync A cfg now fuel s false).isProcessingAfter = false ∧
    (∀ e, A.getLastSync s = .error e →
      (SScheduler.sync A cfg now fuel s false).result = .error e) := by
  refine ⟨rfl, ?_, ?_⟩
  · unfold SScheduler.sync
    cases h : A.getLastSync s with
    | error e => simp [h]
    | ok v =>
        obtain ⟨⟨ts, tt⟩, s1⟩ := v
        simp [h]
  · intro e he
    unfold SScheduler.sync
    simp [he]

/-- C2 witness: the guard and flag-release facts at a concrete adapter
whose `getLastSync` throws. -/
theorem C2_reentrancy_witness :
    SScheduler.sync failingAdapter cfgDefault 5 3 () true
      = ⟨.ok none, (), true, [], []⟩ ∧
    (SScheduler.sync failingAdapter cfgDefault 5 3 () false).isProcessingAfter
      = false ∧
    (SScheduler.sync failingAdapter cfgDefault 5 3 () false).result
      = .error "db down" := by
  obtain ⟨h1, h2, h3⟩ :=
    C2_reentrancy_guard_and_flag failingAdapter cfgDefault 5 3 ()
  exact ⟨h1, h2, h3 "db down" rfl⟩

/-- C8: the retry delay of the source (`calculateNextAttemptTime`, i.e.
`now + delay`) matches the spec's `nextDelay` formula for every
`attemptNumber ≥ 1` and every strategy, and the resolved configuration
defaults are exponential backoff, 1000 ms base delay, 3600000 ms max
delay, batch size 100, concurrency 3, and 30000 ms execution timeout
(named `httpTimeout` in the source's config). -/
theorem C8_retry_policy_and_defaults (cfg : SchedulerConfig) (n now : Nat)
    (_h : 1 ≤ n) :
    SScheduler.calculateNextAttemptTime cfg n now
      = now + nextDelaySpec n cfg.backoffStrategy cfg.baseRetryDelay
          cfg.maxRetryDelay ∧
    mkConfig {} = { concurrency := 3, backoffStrategy := .exponential,
                    baseRetryDelay := 1000, maxRetryDelay := 3600000,
                    httpTimeout := 30000, batchSize := 100 } := by
  refine ⟨?_, rfl⟩
  unfold SScheduler.calculateNextAttemptTime SScheduler.retryDelay nextDelaySpec
  cases cfg.backoffStrategy <;> rfl

/-- C8 witness: the theorem instantiated at the default configuration
and `attemptNumber = 1`. -/
theorem C8_retry_policy_witness :
    SScheduler.calculateNextAttemptTime cfgDefault 1 0
      = 0 + nextDelaySpec 1 cfgDefault.backoffStrategy
          cfgDefault.baseRetryDelay cfgDefault.maxRetryDelay ∧
    mkConfig {} = { concurrency := 3, backoffStrategy := .exponential,
                    baseRetryDelay := 1000, maxRetryDelay := 3600000,
                    httpTimeout := 30000, batchSize := 100 } :=
  C8_retry_policy_and_defaults cfgDefault 1 0 (Nat.le_refl 1)

/-- Chaining the previous draft's `nextTaskId` does not change the
number of drafts. -/
theorem setLastNextTaskId_length (l : List STask) (nid : Nat) :
    (SScheduler.setLastNextTaskId l nid).length = l.length := by
  induction l with
  | nil => rfl
  | cons t ts ih =>
      cases ts with
      | nil => rfl
      | cons t2 ts2 => simpa [SScheduler.setLastNextTaskId] using ih

/-- C9 counterexample: `add` with a present, non-null `payload` (an
object) and a present, non-null `scheduledAt` (a `Date`) but a null
`url` throws — refuting the claim that `add` fails *iff* `payload` or
`scheduledAt` is absent/null (`url` is a third required field). -/
theorem C9_missing_url_counterexample :
    JsVal.truthy (JsVal.vobj 1) = true ∧
    optTimeTruthy (some (TSTime.date 50)) = true ∧
    SScheduler.add ⟨[], 0⟩ (JsVal.vobj 1) JsVal.null (some (TSTime.date 50)) 0
      = .error "url is required" := by
  exact ⟨rfl, rfl, rfl⟩

/-- C9 amended: `add` fails (with the `orThrow` "is required" error of
the first offending field) if and only if its `payload`, `url` or
`scheduledAt` argument is absent, null, or otherwise falsy (`false`,
`0`, the empty string); the check is synchronous — `add` takes no
adapter, so no storage can be touched — and on every non-failing input
exactly one draft is appended to the in-memory workflow and the builder
is returned. -/
theorem C9_amended_add (st : SScheduler.BuilderState) (p u : JsVal)
    (t : Option TSTime) (now : Nat) :
    (SScheduler.add st p u t now).isOk
      = (p.truthy && u.truthy && optTimeTruthy t) ∧
    (SScheduler.add st p u t now).map (fun b => b.workflow.length)
      = (SScheduler.add st p u t now).map (fun _ => st.workflow.length + 1) := by
  cases hp : p.truthy with
  | false =>
      have h : SScheduler.add st p u t now = .error "payload is required" := by
        simp [SScheduler.add, orThrow, hp]
      rw [h]; exact ⟨by simp [hp, Except.isOk, Except.toBool], rfl⟩
  | true =>
      cases hu : u.truthy with
      | false =>
          have h : SScheduler.add st p u t now = .error "url is required" := by
            simp [SScheduler.add, orThrow, hp, hu]
          rw [h]; exact ⟨by simp [hp, hu, Except.isOk, Except.toBool], rfl⟩
      | true =>
          cases t with
          | none =>
              have h : SScheduler.add st p u none now
                  = .error "scheduledAt is required" := by
                simp [SScheduler.add, orThrow, orThrowTime, hp, hu]
              rw [h]; exact ⟨by simp [hp, hu, optTimeTruthy, Except.isOk, Except.toBool], rfl⟩
          | some x =>
              cases hx : x.truthy with
              | false =>
                  have h : SScheduler.add st p u (some x) now
                      = .error "scheduledAt is required" := by
                    simp [SScheduler.add, orThrow, orThrowTime, hp, hu, hx]
                  rw [h]; exact ⟨by simp [hp, hu, hx, optTimeTruthy, Except.isOk, Except.toBool], rfl⟩
              | true =>
                  refine ⟨?_, ?_⟩ <;>
                    simp only [SScheduler.add, orThrow, orThrowTime, hp, hu, hx,
                      optTimeTruthy, Bool.not_true, Bool.false_eq_true,
                      if_false, Bool.and_self, Bool.true_and]
                  · rfl
                  · simp only [Except.map]
                    split <;>
                      simp [setLastNextTaskId_length]

/-- C10: `schedule()` leaves the builder's workflow unchanged.  With a
nonempty workflow and a successful bulk create, `schedule` returns the
created tasks, issues exactly one `createTasks` call carrying the mapped
drafts, and hands back the builder state untouched — so a second
`schedule()` on the same builder sends exactly the same drafts to the
backend a second time. -/
theorem C10_schedule_preserves_workflow {σ : Type} (A : SDBAdapter σ)
    (st : SScheduler.BuilderState) (s s₁ : σ) (created : List STask)
    (hne : st.workflow ≠ [])
    (hc : A.createTasks (st.workflow.map SScheduler.toCreateData) s
        = .ok (created, s₁)) :
    SScheduler.schedule A st s
      = (⟨.ok created, s₁,
          [.createTasks (st.workflow.map SScheduler.toCreateData)]⟩, st) ∧
    (SScheduler.schedule A (SScheduler.schedule A st s).2 s₁).1.trace
      = [.createTasks (st.workflow.map SScheduler.toCreateData)] := by
  have hlen : ¬ st.workflow.length = 0 := by
    simpa [List.length_eq_zero] using hne
  have h1 : SScheduler.schedule A st s
      = (⟨.ok created, s₁,
          [.createTasks (st.workflow.map SScheduler.toCreateData)]⟩, st) := by
    unfold SScheduler.schedule
    simp only [if_neg hlen, hc]
  refine ⟨h1, ?_⟩
  rw [h1]
  show (SScheduler.schedule A st s₁).1.trace
      = [.createTasks (st.workflow.map SScheduler.toCreateData)]
  simp only [SScheduler.schedule, if_neg hlen]
  split <;> rfl

/-- The amended due-ness condition: a *truthy* `nextAttemptAt` (a `Date`,
or a nonzero numeric timestamp) takes precedence over `scheduledAt`;
an absent `nextAttemptAt` — or the numeric timestamp `0`, which the
code's truthiness test cannot distinguish from absence — defers to
`scheduledAt`. -/
def DueAmended (now : Nat) (t : STask) : Prop :=
  (∃ x, t.nextAttemptAt = some x ∧ x.truthy = true ∧ x.toMs ≤ now) ∨
  ((t.nextAttemptAt = none ∨ t.nextAttemptAt = some (TSTime.num 0)) ∧
    t.scheduledAt.toMs ≤ now)

/-- C6 amended: a task in the candidate set is selected by
`filterDueTasks` iff it satisfies `DueAmended`: with `nextAttemptAt` set
and truthy, selection is `nextAttemptAt ≤ now` regardless of
`scheduledAt`; with `nextAttemptAt` absent *or equal to the numeric
timestamp 0*, selection is `scheduledAt ≤ now`. -/
theorem C6_amended_filter (now : Nat) (ts : List STask) (t : STask) :
    t ∈ SScheduler.filterDueTasks now ts ↔ t ∈ ts ∧ DueAmended now t := by
  unfold SScheduler.filterDueTasks DueAmended
  rw [List.mem_filter]
  refine and_congr_right fun _ => ?_
  cases hna : t.nextAttemptAt with
  | none => simp [hna]
  | some x =>
      cases x with
      | date ms => simp [hna, TSTime.truthy, TSTime.toMs]
      | num ms =>
          by_cases hms : ms = 0
          · subst hms
            simp [hna, TSTime.truthy, TSTime.toMs]
          · simp [hna, TSTime.truthy, TSTime.toMs, hms]

/-- C10 witness: a one-draft builder against `acceptingAdapter`. -/
theorem C10_schedule_witness :
    SScheduler.schedule acceptingAdapter ⟨[mkPendingTask 1 10], 5⟩ ()
      = (⟨.ok [], (),
          [.createTasks ([mkPendingTask 1 10].map SScheduler.toCreateData)]⟩,
         ⟨[mkPendingTask 1 10], 5⟩) ∧
    (SScheduler.schedule acceptingAdapter
        (SScheduler.schedule acceptingAdapter ⟨[mkPendingTask 1 10], 5⟩ ()).2
        ()).1.trace
      = [.createTasks ([mkPendingTask 1 10].map SScheduler.toCreateData)] :=
  C10_schedule_preserves_workflow acceptingAdapter ⟨[mkPendingTask 1 10], 5⟩
    () () [] (by simp) rfl

/-- C4 amended: within one `sync()` invocation, a batch whose atomic
claim returns zero tasks executes no tasks (the empty batch contributes
`(0, 0)` and no `updateTask`/`recordTaskAttempt` call), but the
iteration still persists a checkpoint (`setLastSync` with the unchanged
cumulative count) and *continues* the loop, so another batch is fetched;
termination happens only via an empty fetch or an empty due subset. -/
theorem C4_amended_zero_claim_continues {σ : Type} (A : SDBAdapter σ)
    (cfg : SchedulerConfig) (fromDate toDate now processed failedAcc : Nat)
    (s s1 s2 s3 : σ) (pending : List STask)
    (hlist : A.listTasks
        { from_ := fromDate, to_ := some toDate, status := some .pending,
          limit := some cfg.batchSize, offset := none } s
      = .ok (pending, s1))
    (hpend : pending ≠ [])
    (hdue : SScheduler.filterDueTasks now pending ≠ [])
    (hclaim : A.claimTasks (SScheduler.filterDueTasks now pending) s1
      = .ok ([], s2))
    (hset : A.setLastSync toDate processed s2 = .ok ((), s3)) :
    SScheduler.syncIter A cfg fromDate toDate now processed failedAcc s
      = ⟨.ok (.continu processed failedAcc), s3,
         [.listTasks
            { from_ := fromDate, to_ := some toDate, status := some .pending,
              limit := some cfg.batchSize, offset := none },
          .claimTasks ((SScheduler.filterDueTasks now pending).map (·.id)),
          .setLastSync toDate processed],
         [(0, 0)]⟩ := by
  have hpe : pending.isEmpty = false := List.isEmpty_eq_false.mpr hpend
  have hde : (SScheduler.filterDueTasks now pending).isEmpty = false :=
    List.isEmpty_eq_false.mpr hdue
  simp only [SScheduler.syncIter, hlist, hpe, hde, hclaim, Bool.false_eq_true,
    if_false, SScheduler.executeTasksBatch, Nat.add_zero, hset]
  rfl

/-- C4 amended witness: the zero-claim iteration of `contentionAdapter`
at phase 0. -/
theorem C4_amended_zero_claim_witness :
    SScheduler.syncIter contentionAdapter cfgDefault 0 100 100 0 0 0
      = ⟨.ok (.continu 0 0), 1,
         [.listTasks
            { from_ := 0, to_ := some 100, status := some .pending,
              limit := some 100, offset := none },
          .claimTasks ((SScheduler.filterDueTasks 100 [mkPendingTask 9 10]).map (·.id)),
          .setLastSync 100 0],
         [(0, 0)]⟩ :=
  C4_amended_zero_claim_continues contentionAdapter cfgDefault 0 100 100 0 0
    0 0 1 1 [mkPendingTask 9 10] rfl (by decide) (by decide) rfl rfl

/-! ### Checkpoint-trace lemmas for C5 -/

/-- Computation rules for `setLastSyncCalls`. -/
theorem setLastSyncCalls_nil : setLastSyncCalls [] = [] := rfl

theorem setLastSyncCalls_append (a b : List CallTag) :
    setLastSyncCalls (a ++ b) = setLastSyncCalls a ++ setLastSyncCalls b :=
  List.filterMap_append a b _

theorem setLastSyncCalls_setLastSync (ts n : Nat) (tr : List CallTag) :
    setLastSyncCalls (.setLastSync ts n :: tr) = (ts, n) :: setLastSyncCalls tr :=
  rfl

theorem setLastSyncCalls_listTasks (p : ListTasksParams) (tr : List CallTag) :
    setLastSyncCalls (.listTasks p :: tr) = setLastSyncCalls tr := rfl

theorem setLastSyncCalls_getLastSync (tr : List CallTag) :
    setLastSyncCalls (.getLastSync :: tr) = setLastSyncCalls tr := rfl

theorem setLastSyncCalls_claimTasks (ids : List Nat) (tr : List CallTag) :
    setLastSyncCalls (.claimTasks ids :: tr) = setLastSyncCalls tr := rfl

theorem setLastSyncCalls_updateTask (i : Nat) (tr : List CallTag) :
    setLastSyncCalls (.updateTask i :: tr) = setLastSyncCalls tr := rfl

theorem setLastSyncCalls_recordTaskAttempt (i : Nat) (tr : List CallTag) :
    setLastSyncCalls (.recordTaskAttempt i :: tr) = setLastSyncCalls tr := rfl

/-- The function `executeTask` issues only `updateTask`/`recordTaskAttempt` calls,
never a checkpoint write. -/
theorem executeTask_no_setLastSync {σ : Type} (A : SDBAdapter σ)
    (cfg : SchedulerConfig) (now : Nat) (task : STask) (s : σ) :
    setLastSyncCalls (SScheduler.executeTask A cfg now task s).trace = [] := by
  unfold SScheduler.executeTask
  dsimp only
  split
  · simp [SScheduler.handleTaskSuccess, setLastSyncCalls]
  · split <;>
      simp [SScheduler.handleTaskSuccess, SScheduler.handleTaskError,
        setLastSyncCalls]

/-- A whole executed batch issues no checkpoint write. -/
theorem executeTasksBatch_no_setLastSync {σ : Type} (A : SDBAdapter σ)
    (cfg : SchedulerConfig) (now : Nat) (tasks : List STask) (s : σ) :
    setLastSyncCalls (SScheduler.executeTasksBatch A cfg now tasks s).trace
      = [] := by
  induction tasks generalizing s with
  | nil => rfl
  | cons t rest ih =>
      unfold SScheduler.executeTasksBatch
      dsimp only
      split <;>
        simp [setLastSyncCalls_append, executeTask_no_setLastSync, ih]

/-- One loop iteration writes exactly the checkpoints described by its
batch record: none if it stopped before the claim or the claim threw,
and exactly one — timestamped with the window's upper bound and carrying
the updated successful-only cumulative count — if a batch was executed;
and when the iteration continues the loop, its updated counter is the
old one plus the batch's successful count. -/
theorem syncIter_checkpoints {σ : Type} (A : SDBAdapter σ)
    (cfg : SchedulerConfig) (fromDate toDate now processed failedAcc : Nat)
    (s : σ) :
    (setLastSyncCalls
        (SScheduler.syncIter A cfg fromDate toDate now processed failedAcc s).trace
      = (runningTotals processed
          ((SScheduler.syncIter A cfg fromDate toDate now processed
              failedAcc s).batches.map Prod.fst)).map (fun n => (toDate, n))) ∧
    (∀ p' f',
      (SScheduler.syncIter A cfg fromDate toDate now processed
          failedAcc s).step = .ok (.continu p' f') →
      ∃ a b,
        (SScheduler.syncIter A cfg fromDate toDate now processed
            failedAcc s).batches = [(a, b)] ∧ p' = processed + a) := by
  unfold SScheduler.syncIter
  dsimp only
  split
  · exact ⟨rfl, by simp⟩
  · split
    · exact ⟨rfl, by simp⟩
    · split
      · exact ⟨rfl, by simp⟩
      · split
        · exact ⟨rfl, by simp⟩
        · split
          · refine ⟨?_, by simp⟩
            simp [setLastSyncCalls_append, setLastSyncCalls_listTasks,
              setLastSyncCalls_claimTasks, setLastSyncCalls_setLastSync,
              setLastSyncCalls_nil, executeTasksBatch_no_setLastSync,
              runningTotals]
          · refine ⟨?_, ?_⟩
            · simp [setLastSyncCalls_append, setLastSyncCalls_listTasks,
                setLastSyncCalls_claimTasks, setLastSyncCalls_setLastSync,
                setLastSyncCalls_nil, executeTasksBatch_no_setLastSync,
                runningTotals]
            · intro p' f' h
              refine ⟨_, _, rfl, ?_⟩
              injection h with h1
              injection h1 with h2 h3
              exact h2.symm

/-- The checkpoint writes of the whole loop: one per executed batch, in
order, each timestamped with the window's upper bound and carrying the
running successful-only total. -/
theorem syncLoop_checkpoints {σ : Type} (A : SDBAdapter σ)
    (cfg : SchedulerConfig) (fromDate toDate now : Nat) :
    ∀ (fuel processed failedAcc : Nat) (s : σ),
    setLastSyncCalls
        (SScheduler.syncLoop A cfg fromDate toDate now fuel processed
          failedAcc s).trace
      = (runningTotals processed
          ((SScheduler.syncLoop A cfg fromDate toDate now fuel processed
              failedAcc s).batches.map Prod.fst)).map (fun n => (toDate, n)) := by
  intro fuel
  induction fuel with
  | zero => intro p f s; rfl
  | succ fuel ih =>
      intro p f s
      have hiter := syncIter_checkpoints A cfg fromDate toDate now p f s
      unfold SScheduler.syncLoop
      dsimp only
      split
      next e heq => exact hiter.1
      next heq => exact hiter.1
      next p' f' heq =>
        obtain ⟨a, b, hb, hp'⟩ := hiter.2 p' f' heq
        rw [setLastSyncCalls_append, hiter.1, hb, ih p' f']
        subst hp'
        simp [runningTotals]

/-- C5 amended: in every `sync()` invocation — over any adapter, backend
state and flag — the checkpoint writes are exactly one per batch that
reached the claim step (including batches whose claim returned zero
tasks), in order; every one carries `timestamp = now`, the query
window's upper bound fixed at the start of the invocation, and
`totalTasks` equal to the cumulative *successful-only* count of tasks
processed so far in the call (failed executions are not counted). -/
theorem C5_amended_checkpoints {σ : Type} (A : SDBAdapter σ)
    (cfg : SchedulerConfig) (now fuel : Nat) (s : σ) (flag : Bool) :
    setLastSyncCalls (SScheduler.sync A cfg now fuel s flag).trace
      = (runningTotals 0
          ((SScheduler.sync A cfg now fuel s flag).batches.map Prod.fst)).map
          (fun n => (now, n)) := by
  cases flag with
  | true => rfl
  | false =>
      unfold SScheduler.sync
      dsimp only
      split
      · rfl
      · split
        · rfl
        · rw [setLastSyncCalls_getLastSync]
          exact syncLoop_checkpoints A cfg _ now now fuel 0 0 _
